import Mathlib

/-!
Verification development for the ADEmergentVision EPICS area-detector driver
(evtApp/src/ADEmergentVision.cpp, evtApp/src/ADEmergentVision.h).

The driver's acquisition engine is embedded shallowly:
* Pure switch tables (getFrameFormatEVT) become Lean functions over the
  corresponding enumerations.
* Stateful member functions become functions from an explicit DriverState,
  paired with the list of vendor-SDK calls they issue (the device trace) and
  the asynStatus they return.
* The vendor SDK itself is an external collaborator; its outcomes are an
  oracle (DevOracle) of success flags and device-reported values, so that
  every error path of the driver can be exercised.
* The capture loop (evtCallback) is a fuel-indexed recursion; the fuel only
  bounds the number of iterations the model unfolds and every theorem below
  uses enough fuel that the loop exits through the code's own exit paths.
* The start()/stop() thread interleavings are a separate small-step system
  (ConcState / concStep) whose steps mirror the statements of
  startImageAcquisitionThread, acquireStop and the top of evtCallback.
-/

namespace ADEVT

/-- asynStatus as used by the driver: asynSuccess or asynError (the driver
never returns the other asyn codes). -/
inductive AsynStatus
  | success
  | error
deriving DecidableEq, Repr

/-- NDDataType_t of areaDetector, the data-type selector read from the
NDDataType parameter (ADEmergentVision.cpp line 608). -/
inductive NDDataType
  | int8
  | uint8
  | int16
  | uint16
  | int32
  | uint32
  | float32
  | float64
deriving DecidableEq, Repr

/-- NDColorMode_t of areaDetector, the color-mode selector read from the
NDColorMode parameter (ADEmergentVision.cpp line 609). -/
inductive NDColorMode
  | mono
  | bayer
  | rgb1
  | rgb2
  | rgb3
  | yuv444
  | yuv422
  | yuv421
deriving DecidableEq, Repr

/-- The EVT pixel-format codes that getFrameFormatEVT can write to its output
parameter (GVSP_PIX_MONO8, UNPACK_PIX_MONO16, GVSP_PIX_RGB8, UNPACK_PIX_RGB16,
CONVERT_PIX_BAYRG8, CONVERT_PIX_BAYRG16); their numeric SDK values are
irrelevant, only their identity matters. -/
inductive EvtPixelType
  | gvspMono8
  | unpackMono16
  | gvspRgb8
  | unpackRgb16
  | convertBayrg8
  | convertBayrg16
deriving DecidableEq, Repr

/-- ADEmergentVision::getFrameFormatEVT (ADEmergentVision.cpp lines 407-457):
a switch on colorMode with an inner switch on dataType. A supported
combination writes the table entry into the output parameter and returns
asynSuccess (modelled as some); every other combination returns asynError
without writing any pixel type (modelled as none). The function reads
nothing but its arguments, so the embedding as a pure function is exact. -/
def getFrameFormatEVT (colorMode : NDColorMode) (dataType : NDDataType) :
    Option EvtPixelType :=
  match colorMode with
  | .mono =>
    match dataType with
    | .uint8 => some .gvspMono8
    | .uint16 => some .unpackMono16
    | _ => none
  | .rgb1 =>
    match dataType with
    | .uint8 => some .gvspRgb8
    | .uint16 => some .unpackRgb16
    | _ => none
  | .bayer =>
    match dataType with
    | .uint8 => some .convertBayrg8
    | .uint16 => some .convertBayrg16
    | _ => none
  | _ => none

/-- An observable interaction with the vendor SDK or with process memory.
Events record the call made and, where a later branch of the driver depends
on it, the outcome reported by the SDK. freeDeviceInfo is the host-side
free() of the pdeviceInfo descriptor in disconnectFromDeviceEVT. -/
inductive DevEvent
  | setEnumParam (name value : String)
  | setUInt32Param (name : String) (value : Nat)
  | getUInt32Param (name : String)
  | getUInt32ParamMax (name : String)
  | getUInt32ParamMin (name : String)
  | setBoolParam (name : String) (value : Bool)
  | getBoolParam (name : String)
  | execCommand (name : String) (ok : Bool)
  | openStream (ok : Bool)
  | closeStream (ok : Bool)
  | allocFrameBuffer (ok : Bool)
  | queueFrame (ok : Bool)
  | getFrame (ok : Bool)
  | releaseFrameBuffer (ok : Bool)
  | cameraClose (ok : Bool)
  | freeDeviceInfo
deriving DecidableEq, Repr

/-- Outcomes of the vendor SDK, the external collaborator: one success flag
per call the driver checks, plus the device-reported parameter bounds.
FrameRate bounds are included because claim C3 speaks of the device-reported
range of every integer parameter; the code never queries them. -/
structure DevOracle where
  setUInt32Ok : String → Nat → Bool
  getUInt32Ok : String → Bool
  setBoolOk : String → Bool → Bool
  getBoolOk : String → Bool
  exposureMin : Nat
  exposureMax : Nat
  framerateMin : Nat
  framerateMax : Nat
  acqStartOk : Bool
  allocOk : Bool
  queueOk : Bool
  trigOk : Bool
  getFrameOk : Bool
  acqStopOk : Bool
  ndAllocOk : Bool
  releaseOk : Bool
  openStreamOk : Bool
  closeStreamOk : Bool
  closeCameraOk : Bool

/-- Indices of the integer parameters the modelled code touches. Their real
values are assigned by the asyn parameter library at run time; only their
distinctness and the fact that every EVT-specific index is at least
ADEVT_FIRST_PARAM matter, so they are fixed small naturals here. -/
def ADAcquire : Nat := 0

def ADStatus : Nat := 1

def ADImageMode : Nat := 2

def ADNumImages : Nat := 3

def ADNumImagesCounter : Nat := 4

def ADSizeX : Nat := 5

def ADSizeY : Nat := 6

def NDArrayCounter : Nat := 7

def NDArraySize : Nat := 8

def NDArraySizeX : Nat := 9

def NDArraySizeY : Nat := 10

def ADEVT_PixelFormat : Nat := 100

def ADEVT_FIRST_PARAM : Nat := ADEVT_PixelFormat

def ADEVT_Framerate : Nat := 101

def ADEVT_OffsetX : Nat := 102

def ADEVT_OffsetY : Nat := 103

def ADEVT_BufferMode : Nat := 104

def ADEVT_BufferNum : Nat := 105

def ADEVT_PacketSize : Nat := 106

def ADEVT_LUTEnable : Nat := 107

def ADEVT_AutoGain : Nat := 108

/-- ADStatus value ADStatusIdle. -/
def ADStatusIdle : Int := 0

/-- ADStatus value ADStatusAcquire. -/
def ADStatusAcquire : Int := 1

/-- ADImageMode value ADImageSingle. -/
def ADImageSingle : Int := 0

/-- ADImageMode value ADImageMultiple. -/
def ADImageMultiple : Int := 1

/-- The driver's mutable state: the member variables of ADEmergentVision that
the modelled functions read or write (ADEmergentVision.h lines 107-124)
together with the asyn integer-parameter store. pcamera always points at the
camera member (header line 109) and is therefore never NULL; pdeviceInfoNull
tracks whether the pdeviceInfo pointer is null. spawnCount counts the
std::thread objects created by startImageAcquisitionThread. dataTypeSel and
colorModeSel are the values of the NDDataType and NDColorMode parameters
that evtCallback reads, kept as typed fields. -/
structure DriverState where
  connected : Nat
  imageCollectionThreadActive : Nat
  imageThreadOpen : Nat
  pdeviceInfoNull : Bool
  spawnCount : Nat
  params : Nat → Int
  dataTypeSel : NDDataType
  colorModeSel : NDColorMode

/-- asynPortDriver::setIntegerParam on the driver's parameter store. -/
def setIntegerParam (idx : Nat) (v : Int) (s : DriverState) : DriverState :=
  { s with params := Function.update s.params idx v }

/-- asynPortDriver::getIntegerParam on the driver's parameter store. -/
def getIntegerParam (idx : Nat) (s : DriverState) : Int :=
  s.params idx

/-- ADEmergentVision::setCameraValues (lines 266-276): when connected, writes
the default acquisition parameters to the device (all SDK return codes are
ignored) and returns asynSuccess; when not connected returns asynError with
no device calls. -/
def setCameraValues (s : DriverState) : DriverState × List DevEvent × AsynStatus :=
  if s.connected = 0 then (s, [], .error)
  else
    (s,
      [ .setEnumParam "AcquisitionMode" "MultiFrame",
        .setUInt32Param "AcquisitionFrameCount" 1,
        .setEnumParam "TriggerSelector" "FrameStart",
        .setEnumParam "TriggerMode" "On",
        .setEnumParam "TriggerSource" "Software",
        .setEnumParam "BufferMode" "Off",
        .setUInt32Param "BufferNum" 0 ],
      .success)

/-- ADEmergentVision::startImageAcquisitionThread (lines 284-299): if the
imageCollectionThreadActive flag is clear, set it, create a detached
std::thread running evtCallback (counted in spawnCount) and return success;
otherwise log and return error without spawning. -/
def startImageAcquisitionThread (s : DriverState) : DriverState × AsynStatus :=
  if s.imageCollectionThreadActive = 0 then
    ({ s with imageCollectionThreadActive := 1, spawnCount := s.spawnCount + 1 },
      .success)
  else (s, .error)

/-- ADEmergentVision::stopImageAcquisitionThread (lines 307-319): clears the
imageCollectionThreadActive flag when it was set, logs otherwise. The
returned asynStatus is left uninitialized on the success path of the C++ and
is ignored by the only caller (acquireStop line 379), so the model returns
just the state. -/
def stopImageAcquisitionThread (s : DriverState) : DriverState :=
  if s.imageCollectionThreadActive = 0 then s
  else { s with imageCollectionThreadActive := 0 }

/-- ADEmergentVision::acquireStop (lines 369-395). polls is the number of
0.1-second sleeps until the producer thread clears imageThreadOpen: the
while-loop at lines 381-382 sleeps while the flag reads 1 and exits as soon
as it reads 0 (if the flag is already 0 no sleep happens; the loop itself
has no iteration bound, so termination relies on the producer exiting).
Returns (state, device trace, asynStatus, number of sleeps). The early
return at line 371 (not connected) skips everything including the
Idle-parameter writes at lines 390-391; pcamera is never NULL so the branch
at line 373 is not taken. -/
def acquireStop (o : DevOracle) (polls : Nat) (s : DriverState) :
    DriverState × List DevEvent × AsynStatus × Nat :=
  if s.connected = 0 then (s, [], .error, 0)
  else
    let s1 := stopImageAcquisitionThread s
    let sleeps := if s1.imageThreadOpen = 1 then polls else 0
    -- after the wait the producer has cleared the thread-open flag
    let s2 := { s1 with imageThreadOpen := 0 }
    let st := if o.closeStreamOk then AsynStatus.success else AsynStatus.error
    let s3 := setIntegerParam ADAcquire 0 (setIntegerParam ADStatus ADStatusIdle s2)
    (s3, [DevEvent.closeStream o.closeStreamOk], st, sleeps)

/-- ADEmergentVision::acquireStart (lines 329-360). Note the order of the
statements in the source: the ADEVT_Framerate parameter is written before
any check (line 330); setCameraValues can only fail when not connected,
which the guard at line 332 already excluded; EVT_CameraOpenStream is
issued and startImageAcquisitionThread is called (line 343) BEFORE the
stream status is examined (line 344), and the spawned thread is not
stopped on the failure path, which only resets ADAcquire and ADStatus. -/
def acquireStart (o : DevOracle) (s : DriverState) :
    DriverState × List DevEvent × AsynStatus :=
  let s0 := setIntegerParam ADEVT_Framerate 30 s
  if s0.connected = 0 then (s0, [], .error)
  else
    let r := setCameraValues s0
    if r.2.2 = AsynStatus.error then (r.1, r.2.1, .error)
    else
      let tr := r.2.1 ++ [DevEvent.openStream o.openStreamOk]
      let s2 := (startImageAcquisitionThread r.1).1
      if o.openStreamOk then
        (setIntegerParam ADStatus ADStatusAcquire s2, tr, .success)
      else
        (setIntegerParam ADStatus ADStatusIdle (setIntegerParam ADAcquire 0 s2),
          tr, .error)

/-- ADEmergentVision::getEVTExposureMax / getEVTExposureMin (lines 973-995):
query the device-reported Exposure bounds; the caller setEVTExposure
ignores their return statuses and uses the reported values. -/
def getEVTExposureBounds (o : DevOracle) : List DevEvent × Nat × Nat :=
  ([DevEvent.getUInt32ParamMax "Exposure", DevEvent.getUInt32ParamMin "Exposure"],
    o.exposureMax, o.exposureMin)

/-- ADEmergentVision::setEVTExposure (lines 1010-1034): when connected,
queries the Exposure max and min from the device, and only if the requested
value lies in [min, max] issues the device write; out-of-range values are
rejected with asynError and no write. -/
def setEVTExposure (o : DevOracle) (exposure : Nat) (s : DriverState) :
    DriverState × List DevEvent × AsynStatus :=
  if s.connected = 0 then (s, [], .error)
  else
    let q := getEVTExposureBounds o
    if o.exposureMin ≤ exposure ∧ exposure ≤ o.exposureMax then
      (s, q.1 ++ [DevEvent.setUInt32Param "Exposure" exposure],
        if o.setUInt32Ok "Exposure" exposure then .success else .error)
    else (s, q.1, .error)

/-- ADEmergentVision::setEVTFramerate (lines 719-732): when connected,
unconditionally issues the FrameRate device write; no bounds are queried
and no range check is performed. -/
def setEVTFramerate (o : DevOracle) (framerate : Nat) (s : DriverState) :
    DriverState × List DevEvent × AsynStatus :=
  if s.connected = 0 then (s, [], .error)
  else
    (s, [DevEvent.setUInt32Param "FrameRate" framerate],
      if o.setUInt32Ok "FrameRate" framerate then .success else .error)

/-- ADEmergentVision::setEVTOffsetX (lines 748-758): unconditional device
write of OffsetX when connected. -/
def setEVTOffsetX (o : DevOracle) (offsetX : Nat) (s : DriverState) :
    DriverState × List DevEvent × AsynStatus :=
  if s.connected = 0 then (s, [], .error)
  else
    (s, [DevEvent.setUInt32Param "OffsetX" offsetX],
      if o.setUInt32Ok "OffsetX" offsetX then .success else .error)

/-- ADEmergentVision::setEVTOffsetY (lines 774-784): unconditional device
write of OffsetY when connected. -/
def setEVTOffsetY (o : DevOracle) (offsetY : Nat) (s : DriverState) :
    DriverState × List DevEvent × AsynStatus :=
  if s.connected = 0 then (s, [], .error)
  else
    (s, [DevEvent.setUInt32Param "OffsetY" offsetY],
      if o.setUInt32Ok "OffsetY" offsetY then .success else .error)

/-- ADEmergentVision::getEVTBufferNum (lines 867-877): when connected, reads
the device parameter named Offset (not BufferNum) into the output. -/
def getEVTBufferNum (o : DevOracle) (s : DriverState) :
    DriverState × List DevEvent × AsynStatus :=
  if s.connected = 0 then (s, [], .error)
  else
    (s, [DevEvent.getUInt32Param "Offset"],
      if o.getUInt32Ok "Offset" then .success else .error)

/-- ADEmergentVision::setEVTBufferNum (lines 879-889): when connected, writes
the requested buffer number to the device parameter named Offset (not
BufferNum). -/
def setEVTBufferNum (o : DevOracle) (bufferNum : Nat) (s : DriverState) :
    DriverState × List DevEvent × AsynStatus :=
  if s.connected = 0 then (s, [], .error)
  else
    (s, [DevEvent.setUInt32Param "Offset" bufferNum],
      if o.setUInt32Ok "Offset" bufferNum then .success else .error)

/-- ADEmergentVision::setEVTLUTStatus (lines 905-915). -/
def setEVTLUTStatus (o : DevOracle) (lutEnable : Bool) (s : DriverState) :
    DriverState × List DevEvent × AsynStatus :=
  if s.connected = 0 then (s, [], .error)
  else
    (s, [DevEvent.setBoolParam "LUTEnable" lutEnable],
      if o.setBoolOk "LUTEnable" lutEnable then .success else .error)

/-- ADEmergentVision::setEVTAutoGain (lines 931-941). -/
def setEVTAutoGain (o : DevOracle) (autoGainEnable : Bool) (s : DriverState) :
    DriverState × List DevEvent × AsynStatus :=
  if s.connected = 0 then (s, [], .error)
  else
    (s, [DevEvent.setBoolParam "AutoGain" autoGainEnable],
      if o.setBoolOk "AutoGain" autoGainEnable then .success else .error)

/-- ADEmergentVision::setEVTBufferMode (lines 958-968). -/
def setEVTBufferMode (o : DevOracle) (bufferMode : Bool) (s : DriverState) :
    DriverState × List DevEvent × AsynStatus :=
  if s.connected = 0 then (s, [], .error)
  else
    (s, [DevEvent.setBoolParam "BufferMode" bufferMode],
      if o.setBoolOk "BufferMode" bufferMode then .success else .error)

/-- ADEmergentVision::evtFrame2NDArray (lines 522-573): getFrameFormatND can
never return asynError (its default branch still returns asynSuccess), so
the only failure is the NDArray pool allocation. On success the
NDArrayCounter parameter is incremented and callbacks fire. When the pool
allocation fails, the source takes the else branch at line 555 and calls
release() on the NULL pArrays[0] at line 556 — a null-pointer method call —
before the return asynError can execute; the program provides no guarantees
on that path, so the model returns none (crash) rather than a status. -/
def evtFrame2NDArray (o : DevOracle) (s : DriverState) :
    Option (DriverState × AsynStatus) :=
  if o.ndAllocOk then
    some (setIntegerParam NDArrayCounter (getIntegerParam NDArrayCounter s + 1) s,
      .success)
  else none

/-- Result of one iteration of the while-loop body of
ADEmergentVision::evtCallback (lines 593-694): the state after the
iteration, the device calls issued, the uniqueIds of the NDArrays published
to the output sink (doCallbacksGenericPointer, line 652), and whether the
iteration executed the break at line 673. -/
structure IterOut where
  state : DriverState
  trace : List DevEvent
  published : List Int
  broke : Bool

/-- One iteration of the capture-loop body (lines 593-694); none means the
iteration crashed inside evtFrame2NDArray (line 556) and execution does not
continue. The six device steps follow the source's error chaining exactly:
each call is attempted only while err is still EVT_SUCCESS, and the
frame-buffer release at line 663 sits INSIDE the if (err == EVT_SUCCESS)
block opened at line 645, so no release is issued when a device step
failed; on the crash path the release is likewise never reached. polls is
forwarded to the acquireStop calls (the producer has already cleared
imageThreadOpen at those call sites, so no sleeping occurs there). -/
def evtCallbackIter (o : DevOracle) (polls : Nat) (s : DriverState) :
    Option IterOut :=
  let imageMode := getIntegerParam ADImageMode s
  let imageCounter := getIntegerParam ADNumImagesCounter s
  let xsize := getIntegerParam ADSizeX s
  let ysize := getIntegerParam ADSizeY s
  match getFrameFormatEVT s.colorModeSel s.dataTypeSel with
  | none => some ⟨s, [], [], false⟩
  | some _ =>
    let e1 := o.acqStartOk
    let t1 := [DevEvent.execCommand "AcquisitionStart" e1]
    let p2 := if e1 then (o.allocOk, [DevEvent.allocFrameBuffer o.allocOk])
      else (e1, [])
    let p3 := if p2.1 then (o.queueOk, [DevEvent.queueFrame o.queueOk])
      else (p2.1, [])
    let p4 := if p3.1 then (o.trigOk, [DevEvent.execCommand "TriggerSoftware" o.trigOk])
      else (p3.1, [])
    let p5 := if p4.1 then (o.getFrameOk, [DevEvent.getFrame o.getFrameOk])
      else (p4.1, [])
    let p6 := if p5.1 then (o.acqStopOk, [DevEvent.execCommand "AcquisitionStop" o.acqStopOk])
      else (p5.1, [])
    let tr := t1 ++ p2.2 ++ p3.2 ++ p4.2 ++ p5.2 ++ p6.2
    if p6.1 then
      -- lines 645-690: only process the frame if all commands succeeded
      match evtFrame2NDArray o s with
      | none => none   -- crash at line 556: nothing below is reached
      | some conv =>
        let s2 :=
          if conv.2 = AsynStatus.success then
            -- publish (line 652) and refresh the size parameters (lines
            -- 655-657); totalBytes is abstracted as xsize * ysize, the
            -- byte-depth factor plays no role in any claim
            setIntegerParam NDArraySizeY ysize
              (setIntegerParam NDArraySizeX xsize
                (setIntegerParam NDArraySize (xsize * ysize) conv.1))
          else conv.1
        let pub : List Int := if conv.2 = AsynStatus.success then [imageCounter] else []
        let tr2 := tr ++ [DevEvent.releaseFrameBuffer o.releaseOk]
        let c := getIntegerParam ADNumImagesCounter s2
        let s3 := setIntegerParam ADNumImagesCounter (c + 1) s2
        if conv.2 = AsynStatus.error then
          let s4 := { s3 with imageThreadOpen := 0 }
          let r := acquireStop o polls s4
          some ⟨r.1, tr2 ++ r.2.1, pub, true⟩
        else if imageMode = ADImageSingle then
          let s4 := { s3 with imageThreadOpen := 0 }
          let r := acquireStop o polls s4
          some ⟨r.1, tr2 ++ r.2.1, pub, false⟩
        else if imageMode = ADImageMultiple ∧ c + 1 = getIntegerParam ADNumImages s3 then
          let s4 := { s3 with imageThreadOpen := 0 }
          let r := acquireStop o polls s4
          some ⟨r.1, tr2 ++ r.2.1, pub, false⟩
        else some ⟨s3, tr2, pub, false⟩
    else some ⟨s, tr, [], false⟩

/-- The while-loop of evtCallback (line 593): repeat the body while the
imageCollectionThreadActive flag reads 1, stopping early on break; none
propagates a crash of the body. fuel bounds how many iterations the model
unfolds; every use below supplies enough fuel that the loop exits through
the code's own conditions. -/
def evtCallbackLoop (o : DevOracle) (polls : Nat) :
    Nat → DriverState → Option (DriverState × List DevEvent × List Int)
  | 0, s => some (s, [], [])
  | fuel + 1, s =>
    if s.imageCollectionThreadActive = 1 then
      match evtCallbackIter o polls s with
      | none => none
      | some it =>
        if it.broke then some (it.state, it.trace, it.published)
        else
          match evtCallbackLoop o polls fuel it.state with
          | none => none
          | some r => some (r.1, it.trace ++ r.2.1, it.published ++ r.2.2)
    else some (s, [], [])

/-- ADEmergentVision::evtCallback (lines 588-696), the producer thread body:
set imageThreadOpen (line 591), run the loop, and clear imageThreadOpen on
final exit (line 695); none propagates a crash of an iteration. -/
def evtCallback (o : DevOracle) (polls fuel : Nat) (s : DriverState) :
    Option (DriverState × List DevEvent × List Int) :=
  match evtCallbackLoop o polls fuel { s with imageThreadOpen := 1 } with
  | none => none
  | some r => some ({ r.1 with imageThreadOpen := 0 }, r.2.1, r.2.2)

/-- ADEmergentVision::disconnectFromDeviceEVT (lines 199-223): clears the
connected flag FIRST (line 200), then, if the ADAcquire parameter reads
nonzero, calls acquireStop — which immediately returns asynError because
connected is already 0. If pdeviceInfo is NULL the function returns asynError
with no side effects; otherwise it frees pdeviceInfo (without nulling the
pointer) and closes the camera. -/
def disconnectFromDeviceEVT (o : DevOracle) (s : DriverState) :
    DriverState × List DevEvent × AsynStatus :=
  let s0 := { s with connected := 0 }
  let acquiring := getIntegerParam ADAcquire s0
  let r1 :=
    if acquiring ≠ 0 then
      let r := acquireStop o 0 s0
      (r.1, r.2.1)
    else (s0, [])
  if r1.1.pdeviceInfoNull then (r1.1, r1.2, .error)
  else
    let tr := r1.2 ++ [DevEvent.freeDeviceInfo, DevEvent.cameraClose o.closeCameraOk]
    if o.closeCameraOk then ({ r1.1 with connected := 0 }, tr, .success)
    else (r1.1, tr, .error)

/-- ADEmergentVision::writeInt32 (lines 1051-1092) restricted to the integer
parameters whose handlers are modelled; the branches for OffsetX/Y,
BufferNum, LUTEnable, AutoGain and BufferMode dispatch to the corresponding
setters, base-class parameters below ADEVT_FIRST_PARAM fall through to
ADDriver::writeInt32 (modelled as a successful no-op). polls is forwarded
to acquireStop. -/
def writeInt32 (o : DevOracle) (polls : Nat) (function : Nat) (value : Int)
    (s : DriverState) : DriverState × List DevEvent × AsynStatus :=
  let acquiring := getIntegerParam ADAcquire s
  let s0 := setIntegerParam function value s
  if function = ADAcquire then
    if value ≠ 0 ∧ acquiring = 0 then acquireStart o s0
    else if value = 0 ∧ acquiring ≠ 0 then
      let r := acquireStop o polls s0
      (r.1, r.2.1, r.2.2.1)
    else (s0, [], .success)
  else if function = ADImageMode then
    let r1 :=
      if acquiring ≠ 0 then
        let r := acquireStop o polls s0
        (r.1, r.2.1)
      else (s0, [])
    let s2 :=
      if value = ADImageSingle then setIntegerParam ADNumImages 1 r1.1
      else if value = ADImageMultiple then setIntegerParam ADNumImages 100 r1.1
      else r1.1
    (s2, r1.2, .success)
  else if function = ADEVT_Framerate then setEVTFramerate o value.toNat s0
  else if function = ADEVT_OffsetX then setEVTOffsetX o value.toNat s0
  else if function = ADEVT_OffsetY then setEVTOffsetY o value.toNat s0
  else if function = ADEVT_BufferNum then setEVTBufferNum o value.toNat s0
  else if function = ADEVT_LUTEnable then setEVTLUTStatus o (value > 0) s0
  else if function = ADEVT_AutoGain then setEVTAutoGain o (value > 0) s0
  else if function = ADEVT_BufferMode then setEVTBufferMode o (value > 0) s0
  else (s0, [], .success)

/-- Whether a trace event is a successful EVT_AllocateFrameBuffer call. -/
def isSuccessfulAlloc : DevEvent → Bool
  | DevEvent.allocFrameBuffer true => true
  | _ => false

/-- Whether a trace event is an EVT_ReleaseFrameBuffer call (whatever its
outcome). -/
def isRelease : DevEvent → Bool
  | DevEvent.releaseFrameBuffer _ => true
  | _ => false

/-- Number of successful EVT_AllocateFrameBuffer calls recorded in a trace. -/
def countSuccessfulAllocs (tr : List DevEvent) : Nat :=
  (tr.filter isSuccessfulAlloc).length

/-- Number of EVT_ReleaseFrameBuffer calls recorded in a trace. -/
def countReleases (tr : List DevEvent) : Nat :=
  (tr.filter isRelease).length

/-- Program counter of one spawned producer thread: created (the std::thread
exists but has not yet executed line 591) or looping (it has set
imageThreadOpen and entered the while-loop). A thread that exits is removed
from the thread list. -/
inductive ThreadPC
  | created
  | looping
deriving DecidableEq, Repr

/-- Shared state of the start/stop interleaving model: the
imageCollectionThreadActive flag, the imageThreadOpen flag, and the live
producer threads in spawn order. -/
structure ConcState where
  active : Nat
  threadOpen : Nat
  threads : List ThreadPC
deriving DecidableEq, Repr

/-- Atomic steps of the interleaving model. ctlStart is the control thread
running acquireStart's startImageAcquisitionThread (lines 287-297): spawn
only when the active flag is clear, then set it. ctlStop is the control
thread completing acquireStop (lines 379-382): it sets the active flag to 0
and its poll loop returns, which requires that imageThreadOpen reads 0 at
that moment; with imageThreadOpen set the call is still blocked, so the
completed call is only enabled when the flag is 0. threadBegin i is
producer thread i executing line 591 (imageThreadOpen = 1) and the first
while-test of line 593; when the test fails the thread falls through to
line 695 (imageThreadOpen = 0) and terminates. -/
inductive ConcAct
  | ctlStart
  | ctlStop
  | threadBegin (i : Nat)
deriving DecidableEq, Repr

/-- One step of the interleaving model; none marks a step that cannot fire
in the given state. -/
def concStep (s : ConcState) : ConcAct → Option ConcState
  | .ctlStart =>
    if s.active = 0 then
      some { s with active := 1, threads := s.threads ++ [ThreadPC.created] }
    else some s
  | .ctlStop =>
    if s.threadOpen = 0 then some { s with active := 0 } else none
  | .threadBegin i =>
    match s.threads[i]? with
    | some ThreadPC.created =>
      if s.active = 1 then
        some { s with threadOpen := 1, threads := s.threads.set i ThreadPC.looping }
      else
        some { s with threadOpen := 0, threads := s.threads.eraseIdx i }
    | _ => none

/-- Run a sequence of interleaving steps. -/
def concRun (acts : List ConcAct) (s : ConcState) : Option ConcState :=
  acts.foldlM concStep s

/-- The initial interleaving state: flags clear, no producer thread. -/
def concInit : ConcState :=
  { active := 0, threadOpen := 0, threads := [] }

/-- The racing schedule for claim C9: start, a stop that completes before
the spawned thread has executed its first statement, a second start, and
then both spawned threads begin running. -/
def raceActs : List ConcAct :=
  [ConcAct.ctlStart, ConcAct.ctlStop, ConcAct.ctlStart,
    ConcAct.threadBegin 0, ConcAct.threadBegin 1]

-- =======================================================================
-- Concrete fixtures used by counterexamples and witnesses
-- =======================================================================

/-- A vendor SDK in which every call succeeds; Exposure bounds [100, 10000]
and FrameRate bounds [1, 100]. -/
def oAllOk : DevOracle :=
  { setUInt32Ok := fun _ _ => true
    getUInt32Ok := fun _ => true
    setBoolOk := fun _ _ => true
    getBoolOk := fun _ => true
    exposureMin := 100
    exposureMax := 10000
    framerateMin := 1
    framerateMax := 100
    acqStartOk := true
    allocOk := true
    queueOk := true
    trigOk := true
    getFrameOk := true
    acqStopOk := true
    ndAllocOk := true
    releaseOk := true
    openStreamOk := true
    closeStreamOk := true
    closeCameraOk := true }

/-- The all-success SDK except that EVT_CameraQueueFrame fails. -/
def oQueueFail : DevOracle :=
  { oAllOk with queueOk := false }

/-- The all-success SDK except that EVT_CameraOpenStream fails. -/
def oStreamFail : DevOracle :=
  { oAllOk with openStreamOk := false }

/-- A connected, idle driver: all parameters 0, Mono / UInt8 selected. -/
def stIdle : DriverState :=
  { connected := 1
    imageCollectionThreadActive := 0
    imageThreadOpen := 0
    pdeviceInfoNull := false
    spawnCount := 0
    params := fun _ => 0
    dataTypeSel := NDDataType.uint8
    colorModeSel := NDColorMode.mono }

/-- A connected driver in mid-acquisition: capture thread active and open,
ADAcquire parameter set. -/
def stAcq : DriverState :=
  { stIdle with
    imageCollectionThreadActive := 1
    imageThreadOpen := 1
    spawnCount := 1
    params := Function.update (fun _ => 0) ADAcquire 1 }

/-- A connected, idle driver configured for multi-image mode with
ADNumImages = 5 (the scenario of claim C7). -/
def stMulti5 : DriverState :=
  { stIdle with
    params :=
      Function.update
        (Function.update (fun _ => 0) ADImageMode ADImageMultiple)
        ADNumImages 5 }

/-- The full C7 scenario: one start request (writeInt32 on ADAcquire from a
non-acquiring state, which runs acquireStart) followed by the spawned
producer thread running evtCallback to completion; yields the final state,
the device trace, and the uniqueIds published to the output sink (some:
the run completes without crashing). -/
def c7run : Option (DriverState × List DevEvent × List Int) :=
  let r := writeInt32 oAllOk 0 ADAcquire 1 stMulti5
  evtCallback oAllOk 0 10 r.1

/-- First disconnect call on a connected idle driver (claim C8). -/
def c8FirstDisconnect : DriverState × List DevEvent × AsynStatus :=
  disconnectFromDeviceEVT oAllOk stIdle

/-- Second disconnect call, on the state the first one left (claim C8). -/
def c8SecondDisconnect : DriverState × List DevEvent × AsynStatus :=
  disconnectFromDeviceEVT oAllOk c8FirstDisconnect.1

-- =======================================================================
-- Helper lemmas about the trace counters
-- =======================================================================

/-- countSuccessfulAllocs distributes over append. -/
theorem countSuccessfulAllocs_append (a b : List DevEvent) :
    countSuccessfulAllocs (a ++ b) =
      countSuccessfulAllocs a + countSuccessfulAllocs b := by
  simp [countSuccessfulAllocs, List.filter_append]

/-- countReleases distributes over append. -/
theorem countReleases_append (a b : List DevEvent) :
    countReleases (a ++ b) = countReleases a + countReleases b := by
  simp [countReleases, List.filter_append]

/-- The acquireStop trace contains no frame-buffer release. -/
theorem filter_isRelease_acquireStop (o : DevOracle) (polls : Nat)
    (s : DriverState) :
    ((acquireStop o polls s).2.1).filter isRelease = [] := by
  by_cases h : s.connected = 0 <;> simp [acquireStop, h, isRelease]

/-- The acquireStop trace contains no frame-buffer allocation. -/
theorem filter_isAlloc_acquireStop (o : DevOracle) (polls : Nat)
    (s : DriverState) :
    ((acquireStop o polls s).2.1).filter isSuccessfulAlloc = [] := by
  by_cases h : s.connected = 0 <;> simp [acquireStop, h, isSuccessfulAlloc]

-- =======================================================================
-- Theorems settling the claims
-- =======================================================================

/-- C6: the pixel-format resolution function getFrameFormatEVT is pure and
total: it is a function of exactly (colorMode, dataType), so identical inputs
yield identical results; it succeeds precisely on the six-entry table's
domain (Mono, RGB1 or Bayer color mode crossed with UInt8 or UInt16 data
type), and every unknown combination yields the format error (none) rather
than any default or guessed device format. -/
theorem c6_getFrameFormatEVT_pure_total :
    ∀ (cm : NDColorMode) (dt : NDDataType),
      ((getFrameFormatEVT cm dt).isSome ↔
        ((cm = NDColorMode.mono ∨ cm = NDColorMode.rgb1 ∨ cm = NDColorMode.bayer) ∧
         (dt = NDDataType.uint8 ∨ dt = NDDataType.uint16))) ∧
      (¬ ((cm = NDColorMode.mono ∨ cm = NDColorMode.rgb1 ∨ cm = NDColorMode.bayer) ∧
          (dt = NDDataType.uint8 ∨ dt = NDDataType.uint16)) →
        getFrameFormatEVT cm dt = none) := by
  intro cm dt
  cases cm <;> cases dt <;> simp [getFrameFormatEVT]

/-- C1 counterexample: in a capture iteration where AcquisitionStart succeeds,
EVT_AllocateFrameBuffer succeeds and EVT_CameraQueueFrame then fails, the
iteration completes without crashing but issues one successful allocation and
zero releases — the frame buffer leaks, refuting the claim that every
successfully allocated buffer is released exactly once on every exit path. -/
theorem c1_counterexample_queue_failure_leaks :
    ((evtCallbackIter oQueueFail 0 stAcq).map fun it =>
        (countSuccessfulAllocs it.trace, countReleases it.trace)) =
      some (1, 0) := by
  decide

/-- C1 amended: a capture iteration releases the allocated frame buffer
exactly once when all six device steps and the NDArray pool allocation
succeed; when allocation succeeds and a later device step (queue, software
trigger, frame wait, or acquisition stop) fails, the release at line 663 is
skipped — it sits inside the if (err == EVT_SUCCESS) block of line 645 —
and the buffer leaks; and when the device steps succeed but the NDArray
pool allocation fails, the program calls release() on the NULL array at
line 556 and crashes before the frame-buffer release at line 663, so no
release happens on that path either. -/
theorem c1_amended_release_only_on_full_device_success
    (o : DevOracle) (polls : Nat) (s : DriverState)
    (hfmt : (getFrameFormatEVT s.colorModeSel s.dataTypeSel).isSome = true) :
    (o.acqStartOk = true ∧ o.allocOk = true ∧ o.queueOk = true ∧
        o.trigOk = true ∧ o.getFrameOk = true ∧ o.acqStopOk = true ∧
        o.ndAllocOk = true →
      ((evtCallbackIter o polls s).map fun it =>
          (countSuccessfulAllocs it.trace, countReleases it.trace)) =
        some (1, 1)) ∧
    (o.acqStartOk = true ∧ o.allocOk = true ∧
        (o.queueOk && o.trigOk && o.getFrameOk && o.acqStopOk) = false →
      ((evtCallbackIter o polls s).map fun it =>
          (countSuccessfulAllocs it.trace, countReleases it.trace)) =
        some (1, 0)) ∧
    (o.acqStartOk = true ∧ o.allocOk = true ∧ o.queueOk = true ∧
        o.trigOk = true ∧ o.getFrameOk = true ∧ o.acqStopOk = true ∧
        o.ndAllocOk = false →
      evtCallbackIter o polls s = none) := by
  obtain ⟨p, hp⟩ := Option.isSome_iff_exists.mp hfmt
  refine ⟨?_, ?_, ?_⟩
  · rintro ⟨h1, h2, h3, h4, h5, h6, hnd⟩
    simp only [evtCallbackIter, hp, h1, h2, h3, h4, h5, h6, if_true]
    simp only [evtFrame2NDArray, hnd, if_true, if_false,
      reduceCtorEq, ite_true, ite_false]
    split_ifs <;>
      simp [countSuccessfulAllocs, countReleases, List.filter_append,
        filter_isRelease_acquireStop, filter_isAlloc_acquireStop,
        isSuccessfulAlloc, isRelease]
  · rintro ⟨h1, h2, hfail⟩
    cases hq : o.queueOk <;> cases ht : o.trigOk <;> cases hg : o.getFrameOk <;>
      cases ha : o.acqStopOk <;>
      simp_all [evtCallbackIter, hp, countSuccessfulAllocs, countReleases,
        isSuccessfulAlloc, isRelease]
  · rintro ⟨h1, h2, h3, h4, h5, h6, hnd⟩
    simp [evtCallbackIter, hp, h1, h2, h3, h4, h5, h6, evtFrame2NDArray, hnd]

/-- C1 amended witness: at the all-success oracle and the acquiring fixture
state the iteration completes and both counts are 1. -/
theorem c1_amended_release_only_on_full_device_success_witness :
    (getFrameFormatEVT stAcq.colorModeSel stAcq.dataTypeSel).isSome = true ∧
    ((oAllOk.acqStartOk = true ∧ oAllOk.allocOk = true ∧ oAllOk.queueOk = true ∧
        oAllOk.trigOk = true ∧ oAllOk.getFrameOk = true ∧ oAllOk.acqStopOk = true ∧
        oAllOk.ndAllocOk = true →
      ((evtCallbackIter oAllOk 0 stAcq).map fun it =>
          (countSuccessfulAllocs it.trace, countReleases it.trace)) =
        some (1, 1)) ∧
    (oAllOk.acqStartOk = true ∧ oAllOk.allocOk = true ∧
        (oAllOk.queueOk && oAllOk.trigOk && oAllOk.getFrameOk && oAllOk.acqStopOk) = false →
      ((evtCallbackIter oAllOk 0 stAcq).map fun it =>
          (countSuccessfulAllocs it.trace, countReleases it.trace)) =
        some (1, 0)) ∧
    (oAllOk.acqStartOk = true ∧ oAllOk.allocOk = true ∧ oAllOk.queueOk = true ∧
        oAllOk.trigOk = true ∧ oAllOk.getFrameOk = true ∧ oAllOk.acqStopOk = true ∧
        oAllOk.ndAllocOk = false →
      evtCallbackIter oAllOk 0 stAcq = none)) :=
  ⟨by decide,
    c1_amended_release_only_on_full_device_success oAllOk 0 stAcq (by decide)⟩

/-- C2 counterexample: on a connected idle driver whose EVT_CameraOpenStream
call fails, acquireStart returns asynError — but the capture thread it
launched just before examining the stream status keeps running
(imageCollectionThreadActive = 1, one thread spawned), and the framerate
parameter written unconditionally at entry keeps its new value 30: the
state is NOT rolled back with no partial state left behind. -/
theorem c2_counterexample_failed_start_leaves_thread :
    (acquireStart oStreamFail stIdle).2.2 = AsynStatus.error ∧
    (acquireStart oStreamFail stIdle).1.imageCollectionThreadActive = 1 ∧
    (acquireStart oStreamFail stIdle).1.spawnCount = 1 ∧
    getIntegerParam ADEVT_Framerate (acquireStart oStreamFail stIdle).1 = 30 := by
  decide

/-- C2 amended: when the stream-open step of acquireStart fails on a
connected driver with no thread running, the call reports asynError and
resets the acquiring indicator (ADAcquire = 0) and status (Idle), but the
rollback is partial: the capture thread spawned at line 343 — before the
stream status check at line 344 — is left running
(imageCollectionThreadActive = 1, spawn count incremented), and the
ADEVT_Framerate parameter write performed unconditionally at line 330
survives. -/
theorem c2_amended_stream_failure_partial_rollback (o : DevOracle)
    (s : DriverState) (hc : ¬ s.connected = 0)
    (hth : s.imageCollectionThreadActive = 0)
    (hstream : o.openStreamOk = false) :
    (acquireStart o s).2.2 = AsynStatus.error ∧
    getIntegerParam ADAcquire (acquireStart o s).1 = 0 ∧
    getIntegerParam ADStatus (acquireStart o s).1 = ADStatusIdle ∧
    (acquireStart o s).1.imageCollectionThreadActive = 1 ∧
    (acquireStart o s).1.spawnCount = s.spawnCount + 1 ∧
    getIntegerParam ADEVT_Framerate (acquireStart o s).1 = 30 := by
  simp [acquireStart, setCameraValues, startImageAcquisitionThread,
    setIntegerParam, getIntegerParam, Function.update, hc, hth, hstream,
    ADAcquire, ADStatus, ADEVT_Framerate, ADStatusIdle]

/-- C2 amended witness: the partial rollback at the concrete fixtures. -/
theorem c2_amended_stream_failure_partial_rollback_witness :
    (¬ stIdle.connected = 0) ∧ stIdle.imageCollectionThreadActive = 0 ∧
    oStreamFail.openStreamOk = false ∧
    ((acquireStart oStreamFail stIdle).2.2 = AsynStatus.error ∧
     getIntegerParam ADAcquire (acquireStart oStreamFail stIdle).1 = 0 ∧
     getIntegerParam ADStatus (acquireStart oStreamFail stIdle).1 = ADStatusIdle ∧
     (acquireStart oStreamFail stIdle).1.imageCollectionThreadActive = 1 ∧
     (acquireStart oStreamFail stIdle).1.spawnCount = stIdle.spawnCount + 1 ∧
     getIntegerParam ADEVT_Framerate (acquireStart oStreamFail stIdle).1 = 30) :=
  ⟨by decide, by decide, by decide,
    c2_amended_stream_failure_partial_rollback oStreamFail stIdle
      (by decide) (by decide) (by decide)⟩

/-- C3 counterexample: with device-reported FrameRate bounds [1, 100], the
framerate setter called with the out-of-range value 1000 on a connected
driver issues the device write anyway and returns asynSuccess — no bounds
query, no range error. -/
theorem c3_counterexample_framerate_written_out_of_range :
    oAllOk.framerateMax < 1000 ∧
    (setEVTFramerate oAllOk 1000 stIdle).2.1 =
      [DevEvent.setUInt32Param "FrameRate" 1000] ∧
    (setEVTFramerate oAllOk 1000 stIdle).2.2 = AsynStatus.success := by
  decide

/-- C3 amended: only the Exposure setter performs the range check — when
connected it queries the device-reported max and min and rejects an
out-of-range value with asynError and no device write — while the other
named integer setters, here the framerate setter, issue the device write
unconditionally for every value. -/
theorem c3_amended_only_exposure_range_checked (o : DevOracle)
    (s : DriverState) (e v : Nat) (hc : ¬ s.connected = 0)
    (hout : e < o.exposureMin ∨ o.exposureMax < e) :
    (setEVTExposure o e s).2.2 = AsynStatus.error ∧
    (∀ w, DevEvent.setUInt32Param "Exposure" w ∉ (setEVTExposure o e s).2.1) ∧
    DevEvent.getUInt32ParamMax "Exposure" ∈ (setEVTExposure o e s).2.1 ∧
    DevEvent.getUInt32ParamMin "Exposure" ∈ (setEVTExposure o e s).2.1 ∧
    DevEvent.setUInt32Param "FrameRate" v ∈ (setEVTFramerate o v s).2.1 := by
  have hrange : ¬ (o.exposureMin ≤ e ∧ e ≤ o.exposureMax) := by omega
  simp [setEVTExposure, setEVTFramerate, getEVTExposureBounds, hc, hrange]

/-- C3 amended witness: exposure request 5 is below the reported minimum 100
and is rejected without a write, while framerate 1000 is written. -/
theorem c3_amended_only_exposure_range_checked_witness :
    (¬ stIdle.connected = 0) ∧
    (5 < oAllOk.exposureMin ∨ oAllOk.exposureMax < 5) ∧
    ((setEVTExposure oAllOk 5 stIdle).2.2 = AsynStatus.error ∧
     (∀ w, DevEvent.setUInt32Param "Exposure" w ∉ (setEVTExposure oAllOk 5 stIdle).2.1) ∧
     DevEvent.getUInt32ParamMax "Exposure" ∈ (setEVTExposure oAllOk 5 stIdle).2.1 ∧
     DevEvent.getUInt32ParamMin "Exposure" ∈ (setEVTExposure oAllOk 5 stIdle).2.1 ∧
     DevEvent.setUInt32Param "FrameRate" 1000 ∈ (setEVTFramerate oAllOk 1000 stIdle).2.1) :=
  ⟨by decide, by decide,
    c3_amended_only_exposure_range_checked oAllOk stIdle 5 1000
      (by decide) (by decide)⟩

/-- C4 counterexample: writeInt32 on ADAcquire with value 1 while the
ADAcquire parameter already reads 1 (acquisition active) returns
asynSuccess, not the already-active error the claim requires. -/
theorem c4_counterexample_start_while_acquiring_not_rejected :
    (writeInt32 oAllOk 0 ADAcquire 1 stAcq).2.2 = AsynStatus.success ∧
    AsynStatus.success ≠ AsynStatus.error := by
  decide

/-- C4 amended: a start request issued while acquisition is active is
silently ignored rather than rejected: writeInt32 returns asynSuccess,
issues no device call, spawns no thread and changes nothing except
rewriting the ADAcquire parameter to 1 (its current value), because the
value-and-not-acquiring guard at line 1065 skips acquireStart entirely. -/
theorem c4_amended_start_while_acquiring_ignored (o : DevOracle)
    (polls : Nat) (s : DriverState)
    (hacq : ¬ getIntegerParam ADAcquire s = 0) :
    (writeInt32 o polls ADAcquire 1 s).2.2 = AsynStatus.success ∧
    (writeInt32 o polls ADAcquire 1 s).2.1 = [] ∧
    (writeInt32 o polls ADAcquire 1 s).1 = setIntegerParam ADAcquire 1 s := by
  simp [writeInt32, hacq]

/-- C4 amended witness: the ignored start at the acquiring fixture. -/
theorem c4_amended_start_while_acquiring_ignored_witness :
    (¬ getIntegerParam ADAcquire stAcq = 0) ∧
    ((writeInt32 oAllOk 0 ADAcquire 1 stAcq).2.2 = AsynStatus.success ∧
     (writeInt32 oAllOk 0 ADAcquire 1 stAcq).2.1 = [] ∧
     (writeInt32 oAllOk 0 ADAcquire 1 stAcq).1 = setIntegerParam ADAcquire 1 stAcq) :=
  ⟨by decide, c4_amended_start_while_acquiring_ignored oAllOk 0 stAcq (by decide)⟩

/-- C5: on a connected driver, acquireStop clears the shared active flag,
sleep-polls the shared thread-open flag — one 0.1 s sleep per poll, exactly
until the capture loop confirms exit (polls sleeps when the flag was up,
none when it was already down) — issues the device stream-close command
best-effort (the command always runs; its failure makes the returned status
asynError but nothing more), and then unconditionally sets ADStatus to Idle
and the acquiring indicator ADAcquire to 0, even when stream-close failed. -/
theorem c5_acquireStop_idle_unconditionally (o : DevOracle) (polls : Nat)
    (s : DriverState) (hc : ¬ s.connected = 0) :
    (acquireStop o polls s).1.imageCollectionThreadActive = 0 ∧
    (acquireStop o polls s).1.imageThreadOpen = 0 ∧
    (acquireStop o polls s).2.1 = [DevEvent.closeStream o.closeStreamOk] ∧
    ((acquireStop o polls s).2.2.1 = AsynStatus.error ↔ o.closeStreamOk = false) ∧
    getIntegerParam ADStatus (acquireStop o polls s).1 = ADStatusIdle ∧
    getIntegerParam ADAcquire (acquireStop o polls s).1 = 0 ∧
    (acquireStop o polls s).2.2.2 = (if s.imageThreadOpen = 1 then polls else 0) := by
  by_cases hact : s.imageCollectionThreadActive = 0 <;>
    cases hcs : o.closeStreamOk <;>
    simp [acquireStop, stopImageAcquisitionThread, setIntegerParam,
      getIntegerParam, Function.update, hc, hact, hcs,
      ADAcquire, ADStatus, ADStatusIdle]

/-- C5 witness: stopping the acquiring fixture with the all-success SDK and
a producer that needs three polls to exit. -/
theorem c5_acquireStop_idle_unconditionally_witness :
    (¬ stAcq.connected = 0) ∧
    ((acquireStop oAllOk 3 stAcq).1.imageCollectionThreadActive = 0 ∧
     (acquireStop oAllOk 3 stAcq).1.imageThreadOpen = 0 ∧
     (acquireStop oAllOk 3 stAcq).2.1 = [DevEvent.closeStream oAllOk.closeStreamOk] ∧
     ((acquireStop oAllOk 3 stAcq).2.2.1 = AsynStatus.error ↔
        oAllOk.closeStreamOk = false) ∧
     getIntegerParam ADStatus (acquireStop oAllOk 3 stAcq).1 = ADStatusIdle ∧
     getIntegerParam ADAcquire (acquireStop oAllOk 3 stAcq).1 = 0 ∧
     (acquireStop oAllOk 3 stAcq).2.2.2 =
       (if stAcq.imageThreadOpen = 1 then 3 else 0)) :=
  ⟨by decide, c5_acquireStop_idle_unconditionally oAllOk 3 stAcq (by decide)⟩

/-- C7 counterexample: in multi-image mode with a configured count of 5,
one start followed by the capture loop publishes uniqueIds 0, 1, 2, 3, 4 —
not the sequence ids 1 through 5 the claim states (uniqueId takes the
image-counter value read before the increment). -/
theorem c7_counterexample_ids_start_at_zero :
    (c7run.map fun r => r.2.2) = some [0, 1, 2, 3, 4] ∧
    (c7run.map fun r => r.2.2) ≠ some [1, 2, 3, 4, 5] := by
  decide

/-- C7 amended: in multi-image mode with ADNumImages = 5 and an image
counter starting at 0, one start produces a run that completes without
crashing and publishes exactly 5 ImageBuffers whose sequence ids are 0
through 4 (the pre-increment counter values), after which acquisition
auto-stops: the active flag and thread-open flag are clear, ADAcquire reads
0 and ADStatus reads Idle. -/
theorem c7_amended_five_published_zero_based_then_autostop :
    (c7run.map fun r => r.2.2) = some [0, 1, 2, 3, 4] ∧
    (c7run.map fun r => r.2.2.length) = some 5 ∧
    (c7run.map fun r => r.1.imageCollectionThreadActive) = some 0 ∧
    (c7run.map fun r => r.1.imageThreadOpen) = some 0 ∧
    (c7run.map fun r => getIntegerParam ADAcquire r.1) = some 0 ∧
    (c7run.map fun r => getIntegerParam ADStatus r.1) = some ADStatusIdle := by
  decide

/-- C8: disconnectFromDeviceEVT is NOT idempotent and its stop-first step is
dead code. The first disconnect on a connected idle driver succeeds and
frees the descriptor, but the pointer is never nulled, so a second
disconnect frees it again and closes the camera again, returning asynSuccess
— not the no-side-effect not-connected error the claim states. Moreover,
disconnecting while acquiring leaves the capture thread running, because
connected is cleared at line 200 before acquireStop is called, and
acquireStop returns immediately when not connected. -/
theorem c8_double_disconnect_double_free :
    c8FirstDisconnect.2.2 = AsynStatus.success ∧
    c8SecondDisconnect.2.1 = [DevEvent.freeDeviceInfo, DevEvent.cameraClose true] ∧
    c8SecondDisconnect.2.2 = AsynStatus.success ∧
    (disconnectFromDeviceEVT oAllOk stAcq).1.imageCollectionThreadActive = 1 := by
  decide

/-- C9: a reachable interleaving with two live producer threads. The
schedule: start spawns a thread; a stop completes before that thread has
executed its first statement (imageThreadOpen still 0, so the poll loop in
acquireStop falls straight through); a second start sees the active flag
cleared and spawns a second thread; then both threads run their first
statements and, finding the active flag set again, both enter the capture
loop — refuting the claim that at most one producer thread is alive at any
instant for all start/stop interleavings. -/
theorem c9_race_reaches_two_live_producers :
    concRun raceActs concInit =
      some { active := 1, threadOpen := 1,
             threads := [ThreadPC.looping, ThreadPC.looping] } := by
  decide

/-- C10: while connected, setEVTBufferNum writes the device parameter named
Offset — never BufferNum — and getEVTBufferNum likewise reads Offset, so a
buffer-number write through these functions never reaches the device's
BufferNum parameter. -/
theorem c10_bufferNum_addresses_offset_parameter (o : DevOracle) (n : Nat)
    (s : DriverState) (hc : ¬ s.connected = 0) :
    (setEVTBufferNum o n s).2.1 = [DevEvent.setUInt32Param "Offset" n] ∧
    (getEVTBufferNum o s).2.1 = [DevEvent.getUInt32Param "Offset"] ∧
    (∀ v, DevEvent.setUInt32Param "BufferNum" v ∉ (setEVTBufferNum o n s).2.1) ∧
    (∀ v, DevEvent.setUInt32Param "BufferNum" v ∉ (getEVTBufferNum o s).2.1) := by
  simp [setEVTBufferNum, getEVTBufferNum, hc]

/-- C10 witness: the buffer-number accessors at the connected fixture. -/
theorem c10_bufferNum_addresses_offset_parameter_witness :
    (¬ stIdle.connected = 0) ∧
    ((setEVTBufferNum oAllOk 7 stIdle).2.1 = [DevEvent.setUInt32Param "Offset" 7] ∧
     (getEVTBufferNum oAllOk stIdle).2.1 = [DevEvent.getUInt32Param "Offset"] ∧
     (∀ v, DevEvent.setUInt32Param "BufferNum" v ∉ (setEVTBufferNum oAllOk 7 stIdle).2.1) ∧
     (∀ v, DevEvent.setUInt32Param "BufferNum" v ∉ (getEVTBufferNum oAllOk stIdle).2.1)) :=
  ⟨by decide, c10_bufferNum_addresses_offset_parameter oAllOk 7 stIdle (by decide)⟩

end ADEVT
